import Mathlib

/-!
Shallow embedding of the Pulumi program src/infra/__main__.py
(Expert Agent Platform GCP infrastructure).

The Python file is a flat declarative script: it reads the stack
configuration (env, region, site_verification_token, domain_verified),
looks the environment up in three static tables, either exits early
(skip_resources) with minimal exports or declares a fixed list of cloud
resources, and finishes with a list of exports.

Modelling conventions:
  * A declared cloud resource is a `Resource` record: its Pulumi type
    string, its logical name (the first constructor argument), the
    `project` argument when the source passes one, the remaining
    constructor arguments flattened to (key, value) string pairs
    (numbers rendered as decimal strings, booleans as "true"/"false",
    nested args with dotted keys, lists comma-joined), the logical names
    in `depends_on`, and the `import_` / `ignore_changes` resource
    options.
  * A Pulumi `Output` that the source sets explicitly (e.g. a bucket
    name passed as `name=...`) is modelled by that value; an output that
    only the cloud provider determines (e.g. `sql_instance.name`, which
    the source never sets) is modelled by the opaque marker
    `outputRef "..."`.  The project number returned by
    `gcp.organizations.get_project` is modelled by the opaque marker
    `project_number pid`.
  * Python dicts are association lists with `dictGet`; a failed lookup
    (Python KeyError) aborts evaluation, which `evalProgram` models by
    returning `EvalResult.keyError` carrying the table name and key and
    no resources, since nothing after the raising line executes.
  * Python truthiness of `config.get("site_verification_token")`
    (None and "" are falsy) is modelled by `truthy`.
-/

/-- A single declared cloud resource of the Pulumi program. -/
structure Resource where
  rtype : String
  lname : String
  project : Option String
  args : List (String × String)
  dependsOn : List String
  importedFrom : Option String
  ignoreChanges : List String
  deriving DecidableEq, Repr

/-- Render a Python bool argument the way the embedding renders values. -/
def boolStr (b : Bool) : String := cond b "true" "false"

/-- Opaque marker for a provider-determined Pulumi output value. -/
def outputRef (s : String) : String := "<output:" ++ s ++ ">"

/-- Opaque marker for the project number of `gcp.organizations.get_project`. -/
def project_number (pid : String) : String := "<number:" ++ pid ++ ">"

/-- Association-list lookup modelling a Python dict subscript. -/
def dictGet {α : Type} (key : String) : List (String × α) → Option α
  | [] => none
  | (k, v) :: rest => if key = k then some v else dictGet key rest

/-- Python str.replace for a single-character pattern (the source only
replaces "." and "/" by "-"); structural, so it reduces definitionally,
unlike core String.replace. -/
def pyReplace (s : String) (pat rep : Char) : String :=
  ⟨s.data.map (fun c => if c == pat then rep else c)⟩

/-- Python truthiness of an optional string (None and "" are falsy). -/
def truthy : Option String → Bool
  | none => false
  | some s => !(s == "")

/-- One row of `ENV_CONFIGS` (src/infra/__main__.py lines 65-98). -/
structure EnvConfig where
  cloud_sql_tier : String
  cloud_run_memory : String
  cloud_run_cpu : String
  cloud_run_min_instances : Nat
  cloud_run_max_instances : Nat
  skip_resources : Bool
  deriving DecidableEq, Repr

/-- One row of `DOMAIN_CONFIGS` (src/infra/__main__.py lines 39-56). -/
structure DomainConfig where
  domain : String
  dns_zone_name : String
  deriving DecidableEq, Repr

/-- `projects` dict: env name to GCP project ID (lines 25-31). -/
def projects : List (String × String) :=
  [("root", "expert-ai-root"),
   ("dev", "expert-ai-dev"),
   ("beta", "expert-ai-beta"),
   ("gamma", "expert-ai-gamma"),
   ("prod", "expert-ai-prod-484103")]

/-- `root_project_id = projects["root"]` (line 34). -/
def root_project_id : Option String := dictGet "root" projects

/-- `DOMAIN_CONFIGS` (lines 39-56). -/
def DOMAIN_CONFIGS : List (String × DomainConfig) :=
  [("dev",   { domain := "ai-dev.oz.ly",   dns_zone_name := "ai-dev-oz-ly" }),
   ("beta",  { domain := "ai-beta.oz.ly",  dns_zone_name := "ai-beta-oz-ly" }),
   ("gamma", { domain := "ai-gamma.oz.ly", dns_zone_name := "ai-gamma-oz-ly" }),
   ("prod",  { domain := "ai.oz.ly",       dns_zone_name := "ai-oz-ly" })]

/-- `ENV_CONFIGS` (lines 65-98). -/
def ENV_CONFIGS : List (String × EnvConfig) :=
  [("dev",
    { cloud_sql_tier := "db-f1-micro", cloud_run_memory := "512Mi",
      cloud_run_cpu := "1", cloud_run_min_instances := 0,
      cloud_run_max_instances := 3, skip_resources := false }),
   ("beta",
    { cloud_sql_tier := "db-f1-micro", cloud_run_memory := "512Mi",
      cloud_run_cpu := "1", cloud_run_min_instances := 0,
      cloud_run_max_instances := 5, skip_resources := false }),
   ("gamma",
    { cloud_sql_tier := "db-f1-micro", cloud_run_memory := "1Gi",
      cloud_run_cpu := "1", cloud_run_min_instances := 0,
      cloud_run_max_instances := 10, skip_resources := false }),
   ("prod",
    { cloud_sql_tier := "db-g1-small", cloud_run_memory := "1Gi",
      cloud_run_cpu := "2", cloud_run_min_instances := 0,
      cloud_run_max_instances := 50, skip_resources := true })]

/-- `required_apis` (lines 118-132). -/
def required_apis : List String :=
  ["run.googleapis.com",
   "sqladmin.googleapis.com",
   "compute.googleapis.com",
   "storage.googleapis.com",
   "aiplatform.googleapis.com",
   "secretmanager.googleapis.com",
   "cloudbuild.googleapis.com",
   "cloudscheduler.googleapis.com",
   "logging.googleapis.com",
   "monitoring.googleapis.com",
   "pubsub.googleapis.com",
   "iam.googleapis.com",
   "artifactregistry.googleapis.com"]

/-- Logical names of the API-enablement resources (loop, lines 134-142). -/
def enabledApiNames : List String :=
  required_apis.map (fun api => "enable-" ++ pyReplace api '.' '-')

/-- The API-enablement `gcp.projects.Service` resources (lines 134-142). -/
def enabledApiResources (pid : String) : List Resource :=
  required_apis.map (fun api =>
    { rtype := "gcp:projects:Service",
      lname := "enable-" ++ pyReplace api '.' '-',
      project := some pid,
      args := [("service", api), ("disable_on_destroy", "false")],
      dependsOn := [],
      importedFrom := none,
      ignoreChanges := [] })

/-- `sql_instance` (lines 147-181): the Cloud SQL PostgreSQL instance. -/
def sql_instance (e pid region : String) (ec : EnvConfig) : Resource :=
  { rtype := "gcp:sql:DatabaseInstance",
    lname := "expert-agent-db-" ++ e,
    project := some pid,
    args :=
      [("region", region),
       ("database_version", "POSTGRES_15"),
       ("deletion_protection", boolStr (e == "prod")),
       ("settings.tier", ec.cloud_sql_tier),
       ("settings.disk_size", "20"),
       ("settings.disk_type", "PD_SSD"),
       ("settings.disk_autoresize", "true"),
       ("settings.ip_configuration.ipv4_enabled", "true"),
       ("settings.database_flags.max_connections", "100"),
       ("settings.backup_configuration.enabled", "true"),
       ("settings.backup_configuration.start_time", "03:00"),
       ("settings.backup_configuration.point_in_time_recovery_enabled",
        boolStr (e == "prod")),
       ("settings.maintenance_window.day", "7"),
       ("settings.maintenance_window.hour", "4")],
    dependsOn := enabledApiNames,
    importedFrom := none,
    ignoreChanges := [] }

/-- `database` (lines 184-189): the logical database in the instance. -/
def database (e pid : String) : Resource :=
  { rtype := "gcp:sql:Database",
    lname := "expert-agent-database-" ++ e,
    project := some pid,
    args :=
      [("instance", outputRef ("expert-agent-db-" ++ e ++ ".name")),
       ("name", "expert_agent")],
    dependsOn := [],
    importedFrom := none,
    ignoreChanges := [] }

/-- `db_password_resource` (lines 194-199): the generated random password. -/
def db_password_resource (e : String) : Resource :=
  { rtype := "random:RandomPassword",
    lname := "db-password-" ++ e,
    project := none,
    args :=
      [("length", "32"),
       ("special", "true"),
       ("override_special", "!#$%&*()-_=+[]\x7b\x7d<>:?")],
    dependsOn := [],
    importedFrom := none,
    ignoreChanges := [] }

/-- `db_user` (lines 202-208): the database user with the generated password. -/
def db_user (e pid : String) : Resource :=
  { rtype := "gcp:sql:User",
    lname := "expert-agent-db-user-" ++ e,
    project := some pid,
    args :=
      [("instance", outputRef ("expert-agent-db-" ++ e ++ ".name")),
       ("name", "expert_agent"),
       ("password", outputRef ("db-password-" ++ e ++ ".result"))],
    dependsOn := [],
    importedFrom := none,
    ignoreChanges := [] }

/-- `uploads_bucket` (lines 216-249): the user-uploads bucket; imported in dev. -/
def uploads_bucket (e pid region : String) : Resource :=
  { rtype := "gcp:storage:Bucket",
    lname := "expert-agent-uploads-" ++ e,
    project := some pid,
    args :=
      [("name", "expert-agent-uploads-" ++ e),
       ("location", region),
       ("force_destroy", boolStr (e != "prod")),
       ("uniform_bucket_level_access", "true"),
       ("versioning.enabled", boolStr (e == "prod")),
       ("lifecycle_rules.condition.age", "90"),
       ("lifecycle_rules.action.type", "Delete"),
       ("cors.origins", "*"),
       ("cors.methods", "GET,PUT,POST"),
       ("cors.response_headers", "Content-Type"),
       ("cors.max_age_seconds", "3600")],
    dependsOn := [],
    importedFrom :=
      if e == "dev" then some (pid ++ "/expert-agent-uploads-" ++ e) else none,
    ignoreChanges := if e == "dev" then ["name", "forceDestroy"] else [] }

/-- `summaries_bucket` (lines 253-266): the cold-storage bucket; imported in dev. -/
def summaries_bucket (e pid region : String) : Resource :=
  { rtype := "gcp:storage:Bucket",
    lname := "expert-agent-summaries-" ++ e,
    project := some pid,
    args :=
      [("name", "expert-agent-summaries-" ++ e),
       ("location", region),
       ("force_destroy", boolStr (e != "prod")),
       ("uniform_bucket_level_access", "true"),
       ("storage_class", "NEARLINE")],
    dependsOn := [],
    importedFrom :=
      if e == "dev" then some (pid ++ "/expert-agent-summaries-" ++ e) else none,
    ignoreChanges := if e == "dev" then ["name", "forceDestroy"] else [] }

/-- The service account email `expert-agent-sa@{pid}.iam.gserviceaccount.com`
(as in `sa_import_id`, line 272; the `account_id` is fixed so the email is
determined). -/
def cloudRunSaEmail (pid : String) : String :=
  "expert-agent-sa@" ++ pid ++ ".iam.gserviceaccount.com"

/-- `cloud_run_sa` (lines 272-284): the Cloud Run service account; imported in dev. -/
def cloud_run_sa (e pid : String) : Resource :=
  { rtype := "gcp:serviceaccount:Account",
    lname := "expert-agent-sa-" ++ e,
    project := some pid,
    args :=
      [("account_id", "expert-agent-sa"),
       ("display_name", "Expert Agent Cloud Run Service Account (" ++ e ++ ")")],
    dependsOn := [],
    importedFrom :=
      if e == "dev" then
        some ("projects/" ++ pid ++ "/serviceAccounts/" ++ cloudRunSaEmail pid)
      else none,
    ignoreChanges := if e == "dev" then ["account_id"] else [] }

/-- `sa_roles` (lines 287-294). -/
def sa_roles : List String :=
  ["roles/cloudsql.client",
   "roles/storage.objectAdmin",
   "roles/secretmanager.secretAccessor",
   "roles/aiplatform.user",
   "roles/logging.logWriter",
   "roles/cloudtrace.agent"]

/-- The per-role `gcp.projects.IAMMember` grants to the service account
(loop, lines 296-302). -/
def saRoleMembers (e pid : String) : List Resource :=
  sa_roles.map (fun role =>
    { rtype := "gcp:projects:IAMMember",
      lname := "sa-" ++ pyReplace (pyReplace role '/' '-') '.' '-' ++ "-" ++ e,
      project := some pid,
      args :=
        [("role", role),
         ("member", "serviceAccount:" ++ cloudRunSaEmail pid)],
      dependsOn := [],
      importedFrom := none,
      ignoreChanges := [] })

/-- `cloud_build_sa_email` (line 312). -/
def cloud_build_sa_email (pid : String) : String :=
  project_number pid ++ "@cloudbuild.gserviceaccount.com"

/-- `compute_sa_email` (line 315). -/
def compute_sa_email (pid : String) : String :=
  project_number pid ++ "-compute@developer.gserviceaccount.com"

/-- The `gcp.serviceaccount.IAMBinding` letting Cloud Build act as the Cloud
Run SA (lines 318-326); it attaches to `cloud_run_sa.id` and passes no
`project` argument. -/
def cloud_build_acts_as (e pid : String) : Resource :=
  { rtype := "gcp:serviceaccount:IAMBinding",
    lname := "cloud-build-acts-as-cloud-run-sa-" ++ e,
    project := none,
    args :=
      [("service_account_id", outputRef ("expert-agent-sa-" ++ e ++ ".id")),
       ("role", "roles/iam.serviceAccountUser"),
       ("members",
        "serviceAccount:" ++ cloud_build_sa_email pid ++ ","
          ++ "serviceAccount:" ++ compute_sa_email pid)],
    dependsOn := [],
    importedFrom := none,
    ignoreChanges := [] }

/-- Helper for a `gcp.projects.IAMMember` grant. -/
def iamMember (lname pid role member : String) : Resource :=
  { rtype := "gcp:projects:IAMMember",
    lname := lname,
    project := some pid,
    args := [("role", role), ("member", member)],
    dependsOn := [],
    importedFrom := none,
    ignoreChanges := [] }

/-- `cloud_build_infra_sa_email` (line 354). -/
def cloud_build_infra_sa_email (pid : String) : String :=
  "cloud-build-infra@" ++ pid ++ ".iam.gserviceaccount.com"

/-- The CI/CD IAM grants (lines 329-342) and the dedicated Cloud Build
infrastructure SA grants (lines 357-394), in source order. -/
def ciIamMembers (e pid : String) : List Resource :=
  [iamMember ("cloud-build-run-admin-" ++ e) pid "roles/run.admin"
     ("serviceAccount:" ++ cloud_build_sa_email pid),
   iamMember ("cloud-build-artifact-writer-" ++ e) pid "roles/artifactregistry.writer"
     ("serviceAccount:" ++ cloud_build_sa_email pid),
   iamMember ("cloud-build-infra-editor-" ++ e) pid "roles/editor"
     ("serviceAccount:" ++ cloud_build_infra_sa_email pid),
   iamMember ("cloud-build-infra-iam-admin-" ++ e) pid
     "roles/resourcemanager.projectIamAdmin"
     ("serviceAccount:" ++ cloud_build_infra_sa_email pid),
   iamMember ("cloud-build-infra-storage-" ++ e) pid "roles/storage.admin"
     ("serviceAccount:" ++ cloud_build_infra_sa_email pid),
   iamMember ("cloud-build-infra-secrets-" ++ e) pid
     "roles/secretmanager.secretAccessor"
     ("serviceAccount:" ++ cloud_build_infra_sa_email pid),
   iamMember ("cloud-build-infra-logging-" ++ e) pid "roles/logging.logWriter"
     ("serviceAccount:" ++ cloud_build_infra_sa_email pid)]

/-- `artifact_registry` (lines 400-414): the Docker repository; imported in dev. -/
def artifact_registry (e pid region : String) : Resource :=
  { rtype := "gcp:artifactregistry:Repository",
    lname := "expert-agent-docker-repo-" ++ e,
    project := some pid,
    args :=
      [("location", region),
       ("repository_id", "expert-agent"),
       ("format", "DOCKER"),
       ("description", "Docker images for Expert Agent Platform (" ++ e ++ ")")],
    dependsOn := [],
    importedFrom :=
      if e == "dev" then
        some ("projects/" ++ pid ++ "/locations/" ++ region
              ++ "/repositories/expert-agent")
      else none,
    ignoreChanges := if e == "dev" then ["repository_id"] else [] }

/-- `secrets` (lines 419-427). -/
def secrets : List String :=
  ["database-url",
   "google-client-id",
   "google-client-secret",
   "apple-client-id",
   "apple-client-secret",
   "stripe-secret-key",
   "stripe-webhook-secret"]

/-- The Secret Manager placeholder secrets (loop, lines 429-444); imported in dev. -/
def secretResources (e pid : String) : List Resource :=
  secrets.map (fun secret_name =>
    { rtype := "gcp:secretmanager:Secret",
      lname := "secret-" ++ secret_name ++ "-" ++ e,
      project := some pid,
      args := [("secret_id", secret_name), ("replication", "auto")],
      dependsOn := [],
      importedFrom :=
        if e == "dev" then some ("projects/" ++ pid ++ "/secrets/" ++ secret_name)
        else none,
      ignoreChanges := if e == "dev" then ["secret_id"] else [] })

/-- `summarization_topic` (lines 451-460); imported in dev. -/
def summarization_topic (e pid : String) : Resource :=
  { rtype := "gcp:pubsub:Topic",
    lname := "session-summarization-" ++ e,
    project := some pid,
    args := [("name", "session-summarization-" ++ e)],
    dependsOn := [],
    importedFrom :=
      if e == "dev" then
        some ("projects/" ++ pid ++ "/topics/session-summarization-" ++ e)
      else none,
    ignoreChanges := if e == "dev" then ["name"] else [] }

/-- `file_processing_topic` (lines 463-472); imported in dev. -/
def file_processing_topic (e pid : String) : Resource :=
  { rtype := "gcp:pubsub:Topic",
    lname := "file-processing-" ++ e,
    project := some pid,
    args := [("name", "file-processing-" ++ e)],
    dependsOn := [],
    importedFrom :=
      if e == "dev" then
        some ("projects/" ++ pid ++ "/topics/file-processing-" ++ e)
      else none,
    ignoreChanges := if e == "dev" then ["name"] else [] }

/-- `summarization_job` (lines 479-494): the daily Cloud Scheduler job,
declared only when `env != "dev"`. -/
def summarization_job (e pid region : String) : Resource :=
  { rtype := "gcp:cloudscheduler:Job",
    lname := "memory-summarization-job-" ++ e,
    project := some pid,
    args :=
      [("name", "memory-summarization-" ++ e),
       ("region", region),
       ("schedule", "0 3 * * *"),
       ("time_zone", "America/Los_Angeles"),
       ("http_target.uri",
        "https://expert-agent-" ++ pid ++ "." ++ region
          ++ ".run.app/api/internal/summarize-sessions"),
       ("http_target.http_method", "POST"),
       ("http_target.oidc_token.service_account_email", cloudRunSaEmail pid)],
    dependsOn := enabledApiNames,
    importedFrom := none,
    ignoreChanges := [] }

/-- `dns_api` (lines 502-507): enables `dns.googleapis.com`. -/
def dns_api (pid : String) : Resource :=
  { rtype := "gcp:projects:Service",
    lname := "enable-dns-api",
    project := some pid,
    args := [("service", "dns.googleapis.com"), ("disable_on_destroy", "false")],
    dependsOn := [],
    importedFrom := none,
    ignoreChanges := [] }

/-- `dns_zone` (lines 515-529): the managed DNS zone; depends on `dns_api`;
imported in dev. -/
def dns_zone (e pid : String) (dc : DomainConfig) : Resource :=
  { rtype := "gcp:dns:ManagedZone",
    lname := "dns-zone-" ++ e,
    project := some pid,
    args :=
      [("name", dc.dns_zone_name),
       ("dns_name", dc.domain ++ "."),
       ("description", "DNS zone for Expert Agent Platform (" ++ e ++ ")"),
       ("visibility", "public")],
    dependsOn := ["enable-dns-api"],
    importedFrom :=
      if e == "dev" then some ("projects/" ++ pid ++ "/managedZones/" ++ dc.dns_zone_name)
      else none,
    ignoreChanges := if e == "dev" then ["name"] else [] }

/-- `apex_a_record` (lines 549-568): apex A record; depends on the zone. -/
def apex_a_record (e pid : String) (dc : DomainConfig) : Resource :=
  { rtype := "gcp:dns:RecordSet",
    lname := "dns-apex-a-" ++ e,
    project := some pid,
    args :=
      [("managed_zone", dc.dns_zone_name),
       ("name", dc.domain ++ "."),
       ("type", "A"),
       ("ttl", "300"),
       ("rrdatas", "216.239.32.21,216.239.34.21,216.239.36.21,216.239.38.21")],
    dependsOn := ["dns-zone-" ++ e],
    importedFrom :=
      if e == "dev" then some (pid ++ "/ai-dev-oz-ly/ai-dev.oz.ly./A") else none,
    ignoreChanges := if e == "dev" then ["name", "type"] else [] }

/-- `apex_aaaa_record` (lines 571-590): apex AAAA record; depends on the zone. -/
def apex_aaaa_record (e pid : String) (dc : DomainConfig) : Resource :=
  { rtype := "gcp:dns:RecordSet",
    lname := "dns-apex-aaaa-" ++ e,
    project := some pid,
    args :=
      [("managed_zone", dc.dns_zone_name),
       ("name", dc.domain ++ "."),
       ("type", "AAAA"),
       ("ttl", "300"),
       ("rrdatas",
        "2001:4860:4802:32::15,2001:4860:4802:34::15,2001:4860:4802:36::15,2001:4860:4802:38::15")],
    dependsOn := ["dns-zone-" ++ e],
    importedFrom :=
      if e == "dev" then some (pid ++ "/ai-dev-oz-ly/ai-dev.oz.ly./AAAA") else none,
    ignoreChanges := if e == "dev" then ["name", "type"] else [] }

/-- `www_cname_record` (lines 593-602): www CNAME; depends on the zone. -/
def www_cname_record (e pid : String) (dc : DomainConfig) : Resource :=
  { rtype := "gcp:dns:RecordSet",
    lname := "dns-www-cname-" ++ e,
    project := some pid,
    args :=
      [("managed_zone", dc.dns_zone_name),
       ("name", "www." ++ dc.domain ++ "."),
       ("type", "CNAME"),
       ("ttl", "300"),
       ("rrdatas", "ghs.googlehosted.com.")],
    dependsOn := ["dns-zone-" ++ e],
    importedFrom := none,
    ignoreChanges := [] }

/-- `site_verification_txt` (lines 607-617): the TXT record declared only when
a site-verification token is configured (truthy); depends on the zone. -/
def site_verification_txt (e pid : String) (dc : DomainConfig) (tok : String) :
    Resource :=
  { rtype := "gcp:dns:RecordSet",
    lname := "dns-site-verification-" ++ e,
    project := some pid,
    args :=
      [("managed_zone", dc.dns_zone_name),
       ("name", dc.domain ++ "."),
       ("type", "TXT"),
       ("ttl", "300"),
       ("rrdatas", "\"" ++ tok ++ "\"")],
    dependsOn := ["dns-zone-" ++ e],
    importedFrom := none,
    ignoreChanges := [] }

/-- `domain_mapping` (lines 645-669): the Cloud Run domain mapping, declared
only when `domain_verified` is set; depends on the zone; imported in dev. -/
def domain_mapping (e pid region : String) (dc : DomainConfig) : Resource :=
  { rtype := "gcp:cloudrun:DomainMapping",
    lname := "domain-mapping-" ++ e,
    project := some pid,
    args :=
      [("location", region),
       ("name", dc.domain),
       ("metadata.namespace", pid),
       ("spec.route_name", "expert-agent")],
    dependsOn := ["dns-zone-" ++ e],
    importedFrom :=
      if e == "dev" then
        some ("locations/" ++ region ++ "/namespaces/" ++ pid
              ++ "/domainmappings/" ++ dc.domain)
      else none,
    ignoreChanges := if e == "dev" then ["name"] else [] }

/-- Result of evaluating the Pulumi program once: a Python `KeyError` at one
of the static tables (nothing after the raising line runs, so no resources
and no exports), the early `sys.exit(0)` skip path (lines 105-113, exports
only), or a full deployment (resources and exports). -/
inductive EvalResult where
  | keyError (table : String) (key : String)
  | skipped (exports : List (String × String))
  | deployed (resources : List Resource) (exports : List (String × String))
  deriving DecidableEq, Repr

/-- The resources the evaluation declared. -/
def declaredResources : EvalResult → List Resource
  | .keyError _ _ => []
  | .skipped _ => []
  | .deployed rs _ => rs

/-- The stack outputs the evaluation exported. -/
def exportsOf : EvalResult → List (String × String)
  | .keyError _ _ => []
  | .skipped xs => xs
  | .deployed _ xs => xs

/-- The exports of the skip path (lines 107-110). -/
def skipExports (e pid : String) : List (String × String) :=
  [("project_id", pid),
   ("env", e),
   ("skip_resources", "true"),
   ("message",
    "Resources skipped for " ++ e
      ++ " environment to avoid costs. Set skip_resources: False when ready to deploy.")]

/-- The full resource list of the deployed path, in source order:
API enablement (134-142), Cloud SQL (147-208), buckets (216-266), service
account and its role grants (272-302), CI/CD and infrastructure IAM grants
(309-394), Artifact Registry (400-414), secrets (429-444), Pub/Sub topics
(451-472), the scheduler job when `env != "dev"` (477-494), and DNS
(502-617) plus the optional domain mapping (643-669). -/
def mkResources (e pid : String) (dc : DomainConfig) (ec : EnvConfig)
    (region : String) (token : Option String) (dv : Bool) : List Resource :=
  enabledApiResources pid
    ++ [sql_instance e pid region ec,
        database e pid,
        db_password_resource e,
        db_user e pid,
        uploads_bucket e pid region,
        summaries_bucket e pid region,
        cloud_run_sa e pid]
    ++ saRoleMembers e pid
    ++ [cloud_build_acts_as e pid]
    ++ ciIamMembers e pid
    ++ [artifact_registry e pid region]
    ++ secretResources e pid
    ++ [summarization_topic e pid, file_processing_topic e pid]
    ++ (if e != "dev" then [summarization_job e pid region] else [])
    ++ [dns_api pid,
        dns_zone e pid dc,
        apex_a_record e pid dc,
        apex_aaaa_record e pid dc,
        www_cname_record e pid dc]
    ++ (if truthy token then [site_verification_txt e pid dc (token.getD "")] else [])
    ++ (if dv then [domain_mapping e pid region dc] else [])

/-- The exports of the deployed path, in source order: `domain_mapping_url`
is exported in the domain-mapping conditional (lines 670-672), the rest in
the final export block (lines 677-690). -/
def mkExports (e pid : String) (dc : DomainConfig) (dv : Bool) :
    List (String × String) :=
  [("domain_mapping_url",
    if dv then "https://" ++ dc.domain
    else "Domain mapping pending verification - set domain_verified: true in config after verifying domain"),
   ("project_id", pid),
   ("env", e),
   ("sql_instance_name", outputRef ("expert-agent-db-" ++ e ++ ".name")),
   ("sql_connection_name", outputRef ("expert-agent-db-" ++ e ++ ".connection_name")),
   ("uploads_bucket", "expert-agent-uploads-" ++ e),
   ("summaries_bucket", "expert-agent-summaries-" ++ e),
   ("cloud_run_sa_email", cloudRunSaEmail pid),
   ("summarization_topic", "session-summarization-" ++ e),
   ("file_processing_topic", "file-processing-" ++ e),
   ("domain", dc.domain),
   ("dns_zone_name", dc.dns_zone_name),
   ("dns_nameservers", outputRef ("dns-zone-" ++ e ++ ".name_servers"))]

/-- One evaluation of src/infra/__main__.py with stack configuration
`env = envStr`, `region` (defaulted to "us-west1", line 22),
`site_verification_token = token` (line 606) and `domain_verified = dv`
(defaulted to false, line 641).  The three dict subscripts happen in source
order: `projects[env]` (line 33), `DOMAIN_CONFIGS[env]` (line 58),
`ENV_CONFIGS[env]` (line 100); then the skip check (line 105). -/
def evalProgram (envStr : String) (region? : Option String)
    (token : Option String) (dv? : Option Bool) : EvalResult :=
  let region := region?.getD "us-west1"
  match dictGet envStr projects with
  | none => .keyError "projects" envStr
  | some pid =>
    match dictGet envStr DOMAIN_CONFIGS with
    | none => .keyError "DOMAIN_CONFIGS" envStr
    | some dc =>
      match dictGet envStr ENV_CONFIGS with
      | none => .keyError "ENV_CONFIGS" envStr
      | some ec =>
        if ec.skip_resources then
          .skipped (skipExports envStr pid)
        else
          .deployed (mkResources envStr pid dc ec region token (dv?.getD false))
            (mkExports envStr pid dc (dv?.getD false))

/-- The value of a (key, value) constructor argument of a resource. -/
def argVal (r : Resource) (k : String) : Option String :=
  (r.args.find? (fun kv => kv.1 == k)).map Prod.snd

/-- Whether some declared resource has the given Pulumi type. -/
def hasType (rs : List Resource) (t : String) : Bool :=
  rs.any (fun r => r.rtype == t)

/-- Whether a resource is an IAM grant: a project-level `IAMMember` or the
service-account-level `IAMBinding`. -/
def isIamGrant (r : Resource) : Bool :=
  r.rtype == "gcp:projects:IAMMember" || r.rtype == "gcp:serviceaccount:IAMBinding"

/-- Whether the pattern is a prefix of the character list. -/
def charsStart : List Char → List Char → Bool
  | [], _ => true
  | _ :: _, [] => false
  | p :: ps, h :: hs => p == h && charsStart ps hs

/-- Whether the pattern occurs inside the character list. -/
def charsContain : List Char → List Char → Bool
  | [], pat => charsStart pat []
  | h :: hs, pat => charsStart pat (h :: hs) || charsContain hs pat

/-- Substring test on strings. -/
def strContains (hay pat : String) : Bool := charsContain hay.data pat.data

/-- Whether a resource involves the project `p`: it is declared in `p` or
some constructor argument mentions `p`. -/
def involvesProject (r : Resource) (p : String) : Bool :=
  r.project == some p || r.args.any (fun kv => strContains kv.2 p)

/-- Every DNS RecordSet in the list depends on this environment's zone and is
attached to it via `managed_zone`. -/
def recordSetsOk (rs : List Resource) (e zoneName : String) : Bool :=
  rs.all (fun r =>
    r.rtype != "gcp:dns:RecordSet" ||
      (r.dependsOn == ["dns-zone-" ++ e] && argVal r "managed_zone" == some zoneName))

/-- The fixed resource set of the spec: database instance, buckets, service
identity, secret placeholders, pub/sub topics, container registry, DNS zone
and records, and the scheduled job exactly when `withJob`. -/
def fixedSetOk (rs : List Resource) (withJob : Bool) : Bool :=
  hasType rs "gcp:sql:DatabaseInstance" &&
  hasType rs "gcp:storage:Bucket" &&
  hasType rs "gcp:serviceaccount:Account" &&
  hasType rs "gcp:secretmanager:Secret" &&
  hasType rs "gcp:pubsub:Topic" &&
  hasType rs "gcp:artifactregistry:Repository" &&
  hasType rs "gcp:dns:ManagedZone" &&
  hasType rs "gcp:dns:RecordSet" &&
  (hasType rs "gcp:cloudscheduler:Job" == withJob)

/-- Every IAM grant in the list stays in the environment's own project
`own`: a project-level member grant carries `project = own`, the
service-account-level binding carries no project argument, and no grant
mentions the root project ID. -/
def iamOwnProjectOk (rs : List Resource) (own : String) : Bool :=
  rs.all (fun r =>
    !isIamGrant r ||
      ((r.project == some own ||
        (r.rtype == "gcp:serviceaccount:IAMBinding" && r.project == none)) &&
       !(involvesProject r "expert-ai-root")))

/-- The SQL instance carries the table tier, the DNS zone carries the table
zone name and domain, and no declared resource has a memory or CPU
constructor argument. -/
def paramsWiredOk (rs : List Resource) (tier zoneName domainName : String) : Bool :=
  rs.any (fun r =>
    r.rtype == "gcp:sql:DatabaseInstance" && argVal r "settings.tier" == some tier) &&
  rs.any (fun r =>
    r.rtype == "gcp:dns:ManagedZone" && argVal r "name" == some zoneName &&
      argVal r "dns_name" == some (domainName ++ ".")) &&
  rs.all (fun r => r.args.all (fun kv =>
    kv.1 != "memory" && kv.1 != "cpu" &&
    kv.1 != "cloud_run_memory" && kv.1 != "cloud_run_cpu"))

/-- Declared-dependency structure: the SQL instance and the scheduler job
depend on the thirteen API enablements, the DNS zone on the DNS-API
enablement, and every other resource on nothing or only on the zone. -/
def dependsStructureOk (rs : List Resource) (e : String) : Bool :=
  rs.all (fun r =>
    if r.rtype == "gcp:sql:DatabaseInstance" || r.rtype == "gcp:cloudscheduler:Job" then
      r.dependsOn == enabledApiNames
    else if r.rtype == "gcp:dns:ManagedZone" then
      r.dependsOn == ["enable-dns-api"]
    else
      r.dependsOn == [] || r.dependsOn == ["dns-zone-" ++ e])

/-- Data-destruction guards: the SQL instance has deletion protection and
point-in-time recovery set to `isProd`, every bucket has force_destroy set
to `!isProd`, and the uploads bucket has versioning set to `isProd`. -/
def prodGuardOk (rs : List Resource) (e : String) (isProd : Bool) : Bool :=
  rs.all (fun r =>
    (r.rtype != "gcp:sql:DatabaseInstance" ||
      (argVal r "deletion_protection" == some (boolStr isProd) &&
       argVal r "settings.backup_configuration.point_in_time_recovery_enabled"
         == some (boolStr isProd))) &&
    (r.rtype != "gcp:storage:Bucket" ||
      argVal r "force_destroy" == some (boolStr !isProd)) &&
    (r.lname != "expert-agent-uploads-" ++ e ||
      argVal r "versioning.enabled" == some (boolStr isProd)))

/-- Evaluating the program with `env = "dev"` reaches the deployed path with
the dev table rows. -/
theorem evalProgram_dev (r? : Option String) (tok : Option String) (dv? : Option Bool) :
    evalProgram "dev" r? tok dv? =
      .deployed
        (mkResources "dev" "expert-ai-dev" ⟨"ai-dev.oz.ly", "ai-dev-oz-ly"⟩
          ⟨"db-f1-micro", "512Mi", "1", 0, 3, false⟩ (r?.getD "us-west1") tok (dv?.getD false))
        (mkExports "dev" "expert-ai-dev" ⟨"ai-dev.oz.ly", "ai-dev-oz-ly"⟩ (dv?.getD false)) := rfl

/-- Evaluating the program with `env = "beta"` reaches the deployed path with
the beta table rows. -/
theorem evalProgram_beta (r? : Option String) (tok : Option String) (dv? : Option Bool) :
    evalProgram "beta" r? tok dv? =
      .deployed
        (mkResources "beta" "expert-ai-beta" ⟨"ai-beta.oz.ly", "ai-beta-oz-ly"⟩
          ⟨"db-f1-micro", "512Mi", "1", 0, 5, false⟩ (r?.getD "us-west1") tok (dv?.getD false))
        (mkExports "beta" "expert-ai-beta" ⟨"ai-beta.oz.ly", "ai-beta-oz-ly"⟩ (dv?.getD false)) := rfl

/-- Evaluating the program with `env = "gamma"` reaches the deployed path with
the gamma table rows. -/
theorem evalProgram_gamma (r? : Option String) (tok : Option String) (dv? : Option Bool) :
    evalProgram "gamma" r? tok dv? =
      .deployed
        (mkResources "gamma" "expert-ai-gamma" ⟨"ai-gamma.oz.ly", "ai-gamma-oz-ly"⟩
          ⟨"db-f1-micro", "1Gi", "1", 0, 10, false⟩ (r?.getD "us-west1") tok (dv?.getD false))
        (mkExports "gamma" "expert-ai-gamma" ⟨"ai-gamma.oz.ly", "ai-gamma-oz-ly"⟩ (dv?.getD false)) := rfl

/-- Evaluating the program with `env = "prod"` takes the skip path: the
`skip_resources` flag of the prod row makes the script exit after the four
minimal exports, declaring nothing. -/
theorem evalProgram_prod (r? : Option String) (tok : Option String) (dv? : Option Bool) :
    evalProgram "prod" r? tok dv? = .skipped (skipExports "prod" "expert-ai-prod-484103") := rfl

/-- Counterexample to C1: with `env = "prod"` the program takes the early
skip path and instantiates no resource at all (in particular no relational
database instance), so the resource set is not the same fixed set for all
four environments; moreover dev, unlike beta, gets no scheduled job. -/
theorem c1_counterexample :
    evalProgram "prod" none none none = .skipped (skipExports "prod" "expert-ai-prod-484103") ∧
    declaredResources (evalProgram "prod" none none none) = [] ∧
    hasType (declaredResources (evalProgram "prod" none none none))
      "gcp:sql:DatabaseInstance" = false ∧
    hasType (declaredResources (evalProgram "dev" none none none))
      "gcp:cloudscheduler:Job" = false ∧
    hasType (declaredResources (evalProgram "beta" none none none))
      "gcp:cloudscheduler:Job" = true :=
  ⟨rfl, rfl, rfl, rfl, rfl⟩

set_option maxHeartbeats 4000000 in
/-- C1 (amended): for each of dev, beta and gamma, evaluating the program
instantiates the fixed set of managed-cloud resources (a relational database
instance, object-storage buckets, a service identity, secret placeholders,
pub/sub topics, a container registry, and DNS records); the scheduled job is
part of the set for beta and gamma but skipped for dev; prod is skipped
entirely and produces no resources, only minimal exports. -/
theorem c1_fixed_resource_set (r? : Option String) (tok : Option String)
    (dv? : Option Bool) :
    fixedSetOk (declaredResources (evalProgram "dev" r? tok dv?)) false = true ∧
    fixedSetOk (declaredResources (evalProgram "beta" r? tok dv?)) true = true ∧
    fixedSetOk (declaredResources (evalProgram "gamma" r? tok dv?)) true = true ∧
    evalProgram "prod" r? tok dv? = .skipped (skipExports "prod" "expert-ai-prod-484103") := by
  refine ⟨?_, ?_, ?_, rfl⟩
  · rw [evalProgram_dev]
    unfold declaredResources mkResources
    cases htok : truthy tok <;> cases hdv : dv?.getD false <;> rfl
  · rw [evalProgram_beta]
    unfold declaredResources mkResources
    cases htok : truthy tok <;> cases hdv : dv?.getD false <;> rfl
  · rw [evalProgram_gamma]
    unfold declaredResources mkResources
    cases htok : truthy tok <;> cases hdv : dv?.getD false <;> rfl

set_option maxHeartbeats 4000000 in
/-- Counterexample to C2: with `env = "dev"`, no IAM grant the program
declares involves the root project (whose ID `root_project_id` binds): every
grant either carries the environment's own project or is the
service-account-level binding on the environment's own service account. -/
theorem c2_counterexample :
    root_project_id = some "expert-ai-root" ∧
    (declaredResources (evalProgram "dev" none none none)).any
      (fun r => isIamGrant r && involvesProject r "expert-ai-root") = false ∧
    (declaredResources (evalProgram "dev" none none none)).all
      (fun r => !isIamGrant r || r.project == some "expert-ai-dev" ||
        r.rtype == "gcp:serviceaccount:IAMBinding") = true :=
  ⟨rfl, rfl, rfl⟩

set_option maxHeartbeats 4000000 in
/-- C2 (amended): the configuration performs no cross-project IAM wiring:
for every deployed environment, every IAM grant it declares stays in the
environment's own project (each project-level member grant names that
project; the single service-account-level binding carries no project and
attaches to the environment's own service account), and no grant references
the root project that `root_project_id` binds. -/
theorem c2_iam_own_project (r? : Option String) (tok : Option String)
    (dv? : Option Bool) :
    iamOwnProjectOk (declaredResources (evalProgram "dev" r? tok dv?))
      "expert-ai-dev" = true ∧
    iamOwnProjectOk (declaredResources (evalProgram "beta" r? tok dv?))
      "expert-ai-beta" = true ∧
    iamOwnProjectOk (declaredResources (evalProgram "gamma" r? tok dv?))
      "expert-ai-gamma" = true ∧
    root_project_id = some "expert-ai-root" := by
  refine ⟨?_, ?_, ?_, rfl⟩
  · rw [evalProgram_dev]
    unfold declaredResources mkResources
    cases htok : truthy tok <;> cases hdv : dv?.getD false <;> rfl
  · rw [evalProgram_beta]
    unfold declaredResources mkResources
    cases htok : truthy tok <;> cases hdv : dv?.getD false <;> rfl
  · rw [evalProgram_gamma]
    unfold declaredResources mkResources
    cases htok : truthy tok <;> cases hdv : dv?.getD false <;> rfl

set_option maxHeartbeats 4000000 in
/-- Counterexample to C3: with `env = "dev"` the table values
`cloud_run_memory = "512Mi"` and `cloud_run_cpu = "1"` are applied to no
declared resource: no constructor argument of any declared resource carries
either value. -/
theorem c3_counterexample :
    (dictGet "dev" ENV_CONFIGS).map EnvConfig.cloud_run_memory = some "512Mi" ∧
    (dictGet "dev" ENV_CONFIGS).map EnvConfig.cloud_run_cpu = some "1" ∧
    (declaredResources (evalProgram "dev" none none none)).any
      (fun r => r.args.any (fun kv => kv.2 == "512Mi" || kv.2 == "1")) = false :=
  ⟨rfl, rfl, rfl⟩

set_option maxHeartbeats 4000000 in
/-- C3 (amended): for every deployed environment, the machine tier and the
domain name are taken from the static lookup tables and wired into declared
resources — the SQL instance's tier equals ENV_CONFIGS[env].cloud_sql_tier
and the DNS zone's name and domain equal DOMAIN_CONFIGS[env]'s entries —
but the memory/CPU values ENV_CONFIGS[env].cloud_run_memory and
.cloud_run_cpu, though present in the table, are applied to no declared
resource (no declared resource has a memory or CPU parameter). -/
theorem c3_params_wired (r? : Option String) (tok : Option String)
    (dv? : Option Bool) :
    (dictGet "dev" ENV_CONFIGS).map EnvConfig.cloud_sql_tier = some "db-f1-micro" ∧
    dictGet "dev" DOMAIN_CONFIGS = some ⟨"ai-dev.oz.ly", "ai-dev-oz-ly"⟩ ∧
    paramsWiredOk (declaredResources (evalProgram "dev" r? tok dv?))
      "db-f1-micro" "ai-dev-oz-ly" "ai-dev.oz.ly" = true ∧
    (dictGet "beta" ENV_CONFIGS).map EnvConfig.cloud_sql_tier = some "db-f1-micro" ∧
    dictGet "beta" DOMAIN_CONFIGS = some ⟨"ai-beta.oz.ly", "ai-beta-oz-ly"⟩ ∧
    paramsWiredOk (declaredResources (evalProgram "beta" r? tok dv?))
      "db-f1-micro" "ai-beta-oz-ly" "ai-beta.oz.ly" = true ∧
    (dictGet "gamma" ENV_CONFIGS).map EnvConfig.cloud_sql_tier = some "db-f1-micro" ∧
    dictGet "gamma" DOMAIN_CONFIGS = some ⟨"ai-gamma.oz.ly", "ai-gamma-oz-ly"⟩ ∧
    paramsWiredOk (declaredResources (evalProgram "gamma" r? tok dv?))
      "db-f1-micro" "ai-gamma-oz-ly" "ai-gamma.oz.ly" = true := by
  refine ⟨rfl, rfl, ?_, rfl, rfl, ?_, rfl, rfl, ?_⟩
  · rw [evalProgram_dev]
    unfold declaredResources mkResources
    cases htok : truthy tok <;> cases hdv : dv?.getD false <;> rfl
  · rw [evalProgram_beta]
    unfold declaredResources mkResources
    cases htok : truthy tok <;> cases hdv : dv?.getD false <;> rfl
  · rw [evalProgram_gamma]
    unfold declaredResources mkResources
    cases htok : truthy tok <;> cases hdv : dv?.getD false <;> rfl

/-- Counterexample to C4: dev is an environment whose resources are deployed
(49 resources are declared), yet no Cloud Scheduler job is instantiated for
it, because the source guards the job with `if env != "dev"`. -/
theorem c4_counterexample :
    (declaredResources (evalProgram "dev" none none none)).length = 49 ∧
    hasType (declaredResources (evalProgram "dev" none none none))
      "gcp:cloudscheduler:Job" = false :=
  ⟨rfl, rfl⟩

set_option maxHeartbeats 4000000 in
/-- C4 (amended): the daily memory-summarization Cloud Scheduler job is
instantiated for every deployed environment except dev: beta and gamma each
get the job (with the daily 3 AM schedule), while dev, though deployed,
skips it. -/
theorem c4_scheduler_job (r? : Option String) (tok : Option String)
    (dv? : Option Bool) :
    (declaredResources (evalProgram "beta" r? tok dv?)).any
      (fun r => r.lname == "memory-summarization-job-beta" &&
        argVal r "schedule" == some "0 3 * * *") = true ∧
    (declaredResources (evalProgram "gamma" r? tok dv?)).any
      (fun r => r.lname == "memory-summarization-job-gamma" &&
        argVal r "schedule" == some "0 3 * * *") = true ∧
    hasType (declaredResources (evalProgram "dev" r? tok dv?))
      "gcp:cloudscheduler:Job" = false := by
  refine ⟨?_, ?_, ?_⟩
  · rw [evalProgram_beta]
    unfold declaredResources mkResources
    cases htok : truthy tok <;> cases hdv : dv?.getD false <;> rfl
  · rw [evalProgram_gamma]
    unfold declaredResources mkResources
    cases htok : truthy tok <;> cases hdv : dv?.getD false <;> rfl
  · rw [evalProgram_dev]
    unfold declaredResources mkResources
    cases htok : truthy tok <;> cases hdv : dv?.getD false <;> rfl

/-- Counterexample to C5: with `env = "beta"`, the uploads bucket — one of
the resources the claim lists — carries no declared dependency at all, in
particular none on the API-enablement resources (which do exist in the
graph). -/
theorem c5_counterexample :
    (declaredResources (evalProgram "beta" none none none)).any
      (fun r => r.lname == "expert-agent-uploads-beta" &&
        r.dependsOn == ([] : List String)) = true ∧
    hasType (declaredResources (evalProgram "beta" none none none))
      "gcp:projects:Service" = true :=
  ⟨rfl, rfl⟩

set_option maxHeartbeats 4000000 in
/-- C5 (amended): only the SQL instance and the Cloud Scheduler job carry a
declared dependency on the thirteen API-enablement resources; the DNS zone
carries a declared dependency on the separately declared DNS-API enablement;
every other declared resource carries no declared dependency on API
enablement (its depends_on is empty or names only the DNS zone). -/
theorem c5_api_enablement_deps (r? : Option String) (tok : Option String)
    (dv? : Option Bool) :
    dependsStructureOk (declaredResources (evalProgram "dev" r? tok dv?)) "dev" = true ∧
    dependsStructureOk (declaredResources (evalProgram "beta" r? tok dv?)) "beta" = true ∧
    dependsStructureOk (declaredResources (evalProgram "gamma" r? tok dv?)) "gamma" = true := by
  refine ⟨?_, ?_, ?_⟩
  · rw [evalProgram_dev]
    unfold declaredResources mkResources
    cases htok : truthy tok <;> cases hdv : dv?.getD false <;> rfl
  · rw [evalProgram_beta]
    unfold declaredResources mkResources
    cases htok : truthy tok <;> cases hdv : dv?.getD false <;> rfl
  · rw [evalProgram_gamma]
    unfold declaredResources mkResources
    cases htok : truthy tok <;> cases hdv : dv?.getD false <;> rfl

set_option maxHeartbeats 4000000 in
/-- C6 (confirmed): a DNS zone precedes its record sets: for every deployed
environment and any stack configuration, every DNS RecordSet the program
declares carries a declared dependency on the managed zone of that
environment and is attached to it via `managed_zone`; and when a
site-verification token is configured the TXT record is among them. -/
theorem c6_recordsets_follow_zone (r? : Option String) (tok : Option String)
    (dv? : Option Bool) :
    recordSetsOk (declaredResources (evalProgram "dev" r? tok dv?))
      "dev" "ai-dev-oz-ly" = true ∧
    recordSetsOk (declaredResources (evalProgram "beta" r? tok dv?))
      "beta" "ai-beta-oz-ly" = true ∧
    recordSetsOk (declaredResources (evalProgram "gamma" r? tok dv?))
      "gamma" "ai-gamma-oz-ly" = true ∧
    (declaredResources (evalProgram "dev" r? (some "token-abc") dv?)).any
      (fun r => r.lname == "dns-site-verification-dev" &&
        r.rtype == "gcp:dns:RecordSet") = true := by
  refine ⟨?_, ?_, ?_, ?_⟩
  · rw [evalProgram_dev]
    unfold declaredResources mkResources
    cases htok : truthy tok <;> cases hdv : dv?.getD false <;> rfl
  · rw [evalProgram_beta]
    unfold declaredResources mkResources
    cases htok : truthy tok <;> cases hdv : dv?.getD false <;> rfl
  · rw [evalProgram_gamma]
    unfold declaredResources mkResources
    cases htok : truthy tok <;> cases hdv : dv?.getD false <;> rfl
  · rw [evalProgram_dev]
    unfold declaredResources mkResources
    cases hdv : dv?.getD false <;> rfl

/-- C7 (confirmed): the static tables assign dev, beta, gamma and prod
pairwise-distinct project IDs and pairwise-distinct domains; prod receives
the apex subdomain ai.oz.ly and every other environment the prefixed domain
ai-\x7benv\x7d.oz.ly. -/
theorem c7_env_isolation :
    dictGet "dev" projects = some "expert-ai-dev" ∧
    dictGet "beta" projects = some "expert-ai-beta" ∧
    dictGet "gamma" projects = some "expert-ai-gamma" ∧
    dictGet "prod" projects = some "expert-ai-prod-484103" ∧
    List.Pairwise (· ≠ ·)
      ["expert-ai-dev", "expert-ai-beta", "expert-ai-gamma", "expert-ai-prod-484103"] ∧
    (dictGet "dev" DOMAIN_CONFIGS).map DomainConfig.domain = some ("ai-" ++ "dev" ++ ".oz.ly") ∧
    (dictGet "beta" DOMAIN_CONFIGS).map DomainConfig.domain = some ("ai-" ++ "beta" ++ ".oz.ly") ∧
    (dictGet "gamma" DOMAIN_CONFIGS).map DomainConfig.domain = some ("ai-" ++ "gamma" ++ ".oz.ly") ∧
    (dictGet "prod" DOMAIN_CONFIGS).map DomainConfig.domain = some "ai.oz.ly" ∧
    List.Pairwise (· ≠ ·)
      ["ai-dev.oz.ly", "ai-beta.oz.ly", "ai-gamma.oz.ly", "ai.oz.ly"] := by
  refine ⟨rfl, rfl, rfl, rfl, by decide, rfl, rfl, rfl, rfl, by decide⟩

/-- C8 (confirmed): for a deployed environment the program exports exactly
domain_mapping_url, project_id, env, sql_instance_name, sql_connection_name,
uploads_bucket, summaries_bucket, cloud_run_sa_email, summarization_topic,
file_processing_topic, domain, dns_zone_name and dns_nameservers; for the
skipped environment (prod) it exports exactly project_id, env,
skip_resources and message, and no resource identifiers. -/
theorem c8_exports (r? : Option String) (tok : Option String) (dv? : Option Bool) :
    (exportsOf (evalProgram "dev" r? tok dv?)).map Prod.fst =
      ["domain_mapping_url", "project_id", "env", "sql_instance_name",
       "sql_connection_name", "uploads_bucket", "summaries_bucket",
       "cloud_run_sa_email", "summarization_topic", "file_processing_topic",
       "domain", "dns_zone_name", "dns_nameservers"] ∧
    (exportsOf (evalProgram "beta" r? tok dv?)).map Prod.fst =
      ["domain_mapping_url", "project_id", "env", "sql_instance_name",
       "sql_connection_name", "uploads_bucket", "summaries_bucket",
       "cloud_run_sa_email", "summarization_topic", "file_processing_topic",
       "domain", "dns_zone_name", "dns_nameservers"] ∧
    (exportsOf (evalProgram "gamma" r? tok dv?)).map Prod.fst =
      ["domain_mapping_url", "project_id", "env", "sql_instance_name",
       "sql_connection_name", "uploads_bucket", "summaries_bucket",
       "cloud_run_sa_email", "summarization_topic", "file_processing_topic",
       "domain", "dns_zone_name", "dns_nameservers"] ∧
    evalProgram "prod" r? tok dv? = .skipped (skipExports "prod" "expert-ai-prod-484103") ∧
    (exportsOf (evalProgram "prod" r? tok dv?)).map Prod.fst =
      ["project_id", "env", "skip_resources", "message"] :=
  ⟨rfl, rfl, rfl, rfl, rfl⟩

/-- C9 (confirmed): for any env value outside root/dev/beta/gamma/prod the
program fails with a key-lookup error at the `projects` table, declaring no
resource and exporting nothing; for env = "root" it fails at the
DOMAIN_CONFIGS lookup, likewise before declaring any resource. -/
theorem c9_bad_env_fails_early (s : String)
    (h : s ∉ ["root", "dev", "beta", "gamma", "prod"])
    (r? : Option String) (tok : Option String) (dv? : Option Bool) :
    evalProgram s r? tok dv? = .keyError "projects" s ∧
    declaredResources (evalProgram s r? tok dv?) = [] ∧
    exportsOf (evalProgram s r? tok dv?) = [] ∧
    evalProgram "root" r? tok dv? = .keyError "DOMAIN_CONFIGS" "root" ∧
    declaredResources (evalProgram "root" r? tok dv?) = [] := by
  simp only [List.mem_cons, List.not_mem_nil, or_false, not_or] at h
  obtain ⟨h1, h2, h3, h4, h5⟩ := h
  have hd : dictGet s projects = none := by
    simp [dictGet, projects, h1, h2, h3, h4, h5]
  refine ⟨?_, ?_, ?_, rfl, rfl⟩ <;>
    simp [evalProgram, hd, declaredResources, exportsOf]

/-- Witness for C9 at the concrete input "staging". -/
theorem c9_witness :
    "staging" ∉ ["root", "dev", "beta", "gamma", "prod"] ∧
    (evalProgram "staging" none none none = .keyError "projects" "staging" ∧
     declaredResources (evalProgram "staging" none none none) = [] ∧
     exportsOf (evalProgram "staging" none none none) = [] ∧
     evalProgram "root" none none none = .keyError "DOMAIN_CONFIGS" "root" ∧
     declaredResources (evalProgram "root" none none none) = []) :=
  ⟨by decide, c9_bad_env_fails_early "staging" (by decide) none none none⟩

set_option maxHeartbeats 4000000 in
/-- C10 (confirmed): production data is guarded and non-production is
disposable: in the SQL instance declaration, deletion_protection and
point_in_time_recovery_enabled are the value of `env == "prod"`; in both
bucket declarations, force_destroy is the value of `env != "prod"`; in the
uploads bucket, versioning is the value of `env == "prod"`; and in the
evaluated program every deployed environment (all of which are non-prod)
accordingly gets unprotected, force-destroyable, unversioned data
resources. -/
theorem c10_prod_data_guards (e pid region : String) (ec : EnvConfig)
    (r? : Option String) (tok : Option String) (dv? : Option Bool) :
    argVal (sql_instance e pid region ec) "deletion_protection"
      = some (boolStr (e == "prod")) ∧
    argVal (sql_instance e pid region ec)
      "settings.backup_configuration.point_in_time_recovery_enabled"
      = some (boolStr (e == "prod")) ∧
    argVal (uploads_bucket e pid region) "force_destroy"
      = some (boolStr (e != "prod")) ∧
    argVal (uploads_bucket e pid region) "versioning.enabled"
      = some (boolStr (e == "prod")) ∧
    argVal (summaries_bucket e pid region) "force_destroy"
      = some (boolStr (e != "prod")) ∧
    prodGuardOk (declaredResources (evalProgram "dev" r? tok dv?)) "dev" false = true ∧
    prodGuardOk (declaredResources (evalProgram "beta" r? tok dv?)) "beta" false = true ∧
    prodGuardOk (declaredResources (evalProgram "gamma" r? tok dv?)) "gamma" false = true := by
  refine ⟨rfl, rfl, rfl, rfl, rfl, ?_, ?_, ?_⟩
  · rw [evalProgram_dev]
    unfold declaredResources mkResources
    cases htok : truthy tok <;> cases hdv : dv?.getD false <;> rfl
  · rw [evalProgram_beta]
    unfold declaredResources mkResources
    cases htok : truthy tok <;> cases hdv : dv?.getD false <;> rfl
  · rw [evalProgram_gamma]
    unfold declaredResources mkResources
    cases htok : truthy tok <;> cases hdv : dv?.getD false <;> rfl
